import Mathlib

/-!
Verification of `msticpy/datamodel/pivot_register.py` (pivot registry
prototype) against its natural-language specification.

The module is embedded shallowly:

* Python values that flow through the registry are modelled by `PyVal`
  (strings, ints, floats, lists).  Floats are carried opaquely — the code
  never computes with them — so they are represented by rationals.
* Tables (`pandas.DataFrame` results of query providers) are modelled as
  lists of opaque rows (`Table := List PyVal`); the spec (§6) only requires
  a tabular structure supporting row-wise, order-preserving concatenation,
  which is `List.append`/`join` here.
* Python exceptions raised by the module are modelled by `PyErr`;
  fallible code returns `Except PyErr _`.  Note that in Python
  `UnboundLocalError` is a subclass of `NameError`.
* The external entity vocabulary module (`..nbtools.entityschema`,
  not part of the analysed source) is modelled as a read-only attribute
  table `PyModule`: a list of (attribute name, object) pairs.  `PyObj` is an
  opaque Python object handle carrying only its identity and its
  truthiness (entity classes are truthy).
* `difflib.get_close_matches` (standard library, external) is passed in as
  a parameter `gcm : String → List String → List String`.
-/

/-- A Python value as it flows through the pivot registry: a scalar
(string, int, float) or a list.  Floats are never computed with by the
code under analysis, only tested with `isinstance` and wrapped, so they
are carried opaquely as rationals. -/
inductive PyVal where
  | str (s : String)
  | int (n : Int)
  | float (q : Rat)
  | list (xs : List PyVal)
deriving Repr

/-- Rows of a query-provider result table are opaque; a table is its list
of rows, and `pandas.concat` is row-wise, order-preserving concatenation
(spec §6 "Table type"). -/
abbrev Table := List PyVal

/-- Python exceptions that the embedded code can raise.
`unboundLocalError` and `nameError` are both `NameError`-class in Python
(`UnboundLocalError` subclasses `NameError`); `attributeError` is not. -/
inductive PyErr where
  | attributeError (attr : String)
  | nameError (args : List String)
  | unboundLocalError (var : String)
  | typeError (mssg : String)
deriving Repr, DecidableEq

/-- An opaque Python object handle: `oid` is its identity, `truthy` its
truth value under `bool(...)` (a class object is always truthy). -/
structure PyObj where
  truthy : Bool
  oid : Nat
deriving Repr, DecidableEq

/-- The external entity-vocabulary module, as an attribute table. -/
abbrev PyModule := List (String × PyObj)

/-- `getattr(entities, name)` without a default: the attribute's value if
present, otherwise `none` (Python raises `AttributeError`). -/
def lookup_attr (m : PyModule) (name : String) : Option PyObj :=
  (m.find? (fun kv => kv.1 == name)).map Prod.snd

/-- Python iteration, `for x in v`: a list yields its elements, a string
yields its one-character substrings, an int or float raises `TypeError`. -/
def iter_py : PyVal → Except PyErr (List PyVal)
  | .list xs => .ok xs
  | .str s => .ok (s.data.map (fun c => .str (String.singleton c)))
  | .int _ => .error (.typeError "\x27int\x27 object is not iterable")
  | .float _ => .error (.typeError "\x27float\x27 object is not iterable")

/-- The list comprehension `[qry_func(qry_val) for qry_val in qry_values]`
of `_iterate_prov_query`, instrumented with the call trace: the first
component records the argument of each provider invocation, in invocation
order; the second collects the returned tables in the same order. -/
def run_queries (qry_func : PyVal → Table) : List PyVal → List PyVal × List Table
  | [] => ([], [])
  | v :: vs =>
      let t := qry_func v
      let (calls, ts) := run_queries qry_func vs
      (v :: calls, t :: ts)

/-- Row-wise concatenation of tables, preserving the order of the input
tables and of the rows within each (spec §6). -/
def pd_concat (ts : List Table) : Table := ts.flatten

/-- `_iterate_prov_query(qry_func, qry_values)`:
`return pd.concat([qry_func(qry_val, **kwargs) for qry_val in qry_values])`.
The result carries the provider call trace produced by `run_queries`. -/
def iterate_prov_query (qry_func : PyVal → Table) (qry_values : PyVal) :
    Except PyErr (List PyVal × Table) :=
  match iter_py qry_values with
  | .error e => .error e
  | .ok vs =>
      let (calls, ts) := run_queries qry_func vs
      .ok (calls, pd_concat ts)

/-- The scalar-normalization step of `_value_to_df` (lines 52–53): a bare
`str`, `int` or `float` is wrapped into a one-element list, anything else
is passed through.  (The subsequent `pd.DataFrame(..., columns=...)`
construction is external to the registry and not modelled.)  This helper
is dead code in the source: nothing in the module calls `_value_to_df`. -/
def value_to_df_normalize (qry_val : PyVal) : PyVal :=
  match qry_val with
  | .str _ | .int _ | .float _ => .list [qry_val]
  | v => v

/-- `dir(entities)`: the module's attribute names, deduplicated and
sorted alphabetically (this list only feeds the fuzzy-match suggestions
and the "valid arguments" message). -/
def dir_module (m : PyModule) : List String :=
  ((m.map Prod.fst).eraseDups).mergeSort (fun a b => a ≤ b)

/-- The failure-message construction of `_entity_class` (lines 64–71):
start from `"{entity_name} is not a recognized entity name. "` and append
the three-case suffix determined by the list of close matches. -/
def closest_message (entity_name : String) (legal_entities closest : List String) :
    String :=
  let mssg := entity_name ++ " is not a recognized entity name. "
  if closest.length = 1 then
    mssg ++ "Closest match is \x27" ++ closest.headI ++ "\x27"
  else if closest ≠ [] then
    mssg ++ "Closest matches are " ++
      String.intercalate ", " (closest.map (fun mtch => "\x27" ++ mtch ++ "\x27"))
  else
    mssg ++ "Valid arguments are " ++ String.intercalate ", " legal_entities

/-- `_entity_class(entity_name)`.  `gcm` stands in for the external
`difflib.get_close_matches` (called with the unknown name and
`dir(entities)`).  Faithful to the source:
`ent_cls = getattr(entities, entity_name)` has no default, so a name
absent from the module raises `AttributeError` before the `NameError`
branch below it can run; the `NameError` branch is reachable only for a
present-but-falsy attribute. -/
def entity_class (entities : PyModule) (gcm : String → List String → List String)
    (entity_name : String) : Except PyErr PyObj :=
  match lookup_attr entities entity_name with
  | none => .error (.attributeError entity_name)
  | some ent_cls =>
    if ent_cls.truthy then .ok ent_cls
    else
      let legal_entities := dir_module entities
      let closest := gcm entity_name legal_entities
      .error (.nameError [entity_name, closest_message entity_name legal_entities closest])

/-- The value of `qry_entities` for one entity: either the name of the
keyword argument that receives the query value, or a dict of kwargs for
`qry_func` (`Dict[str, Union[str, Dict[str, Any]]]`). -/
inductive Binding where
  | kw (name : String)
  | kwargs (args : List (String × PyVal))

/-- `PivotRegistration` (attrs class).  Defaults as in the source:
`prov_class=None`, `schema=dict()`, `qry_entities=dict()`,
`multi_query_supported=True`.  Dicts keep insertion order, so they are
association lists here. -/
structure PivotRegistration where
  qry_name : String
  qry_func : PyVal → Table
  prov_class : Option PyObj := none
  schema : List (String × String) := []
  qry_entities : List (String × Binding) := []
  multi_query_supported : Bool := true

/-- The callable computed in the loop body of `register_provider`: either
the provider function itself, or — when `multi_query_supported` is false —
`partial(_iterate_prov_query, qry_func=qry_func)`, reified as
`batch_adapter`. -/
inductive Callable where
  | base (f : PyVal → Table)
  | batch_adapter (f : PyVal → Table)

/-- Invoking a `Callable` on one argument, with the call trace of the
underlying provider: the bare provider is called exactly once with the
argument as given; the batch adapter runs `_iterate_prov_query`. -/
def Callable.invoke : Callable → PyVal → Except PyErr (List PyVal × Table)
  | .base f, v => .ok ([v], f v)
  | .batch_adapter f, v => iterate_prov_query f v

/-- The local variables of `register_provider` that the for-loop assigns:
`entity` (the loop variable) and `qry_func`.  `none` means "never
assigned" (reading such a local raises `UnboundLocalError`). -/
structure LoopLocals where
  entity : Option String
  qry_func : Option Callable

/-- One iteration of the loop in `register_provider`: `entity` is bound
to the current key of `qry_entities`; `qry_func` is rebound from
`prov.qry_func` and wrapped in the batch adapter iff
`multi_query_supported` is false.  The body reads nothing from earlier
iterations, so the previous locals are ignored. -/
def loop_body (prov : PivotRegistration) (kv : String × Binding) : LoopLocals :=
  let qf := Callable.base prov.qry_func
  let qf := if !prov.multi_query_supported then Callable.batch_adapter prov.qry_func else qf
  { entity := some kv.1, qry_func := some qf }

/-- The `for entity in prov.qry_entities:` loop of `register_provider`,
returning the locals it leaves behind (keys are visited in insertion
order; only the last iteration's bindings survive). -/
def register_loop (prov : PivotRegistration) : LoopLocals :=
  prov.qry_entities.foldl (fun _ kv => loop_body prov kv) ⟨none, none⟩

/-- `register_provider(prov)`, faithful to the source's indentation: the
two statements after the loop are OUTSIDE it, so they run once, on the
loop variable's final value.  If `qry_entities` is empty the loop body
never runs and reading `entity` raises `UnboundLocalError`; otherwise
`_entity_class` is called on the LAST key only, and if that succeeds the
call `set_attr()` raises `NameError` because no such global is defined
anywhere in the module (the callables computed in the loop are never
attached to anything). -/
def register_provider (entities : PyModule)
    (gcm : String → List String → List String) (prov : PivotRegistration) :
    Except PyErr Unit :=
  let locals := register_loop prov
  match locals.entity with
  | none => .error (.unboundLocalError "entity")
  | some entity =>
    match entity_class entities gcm entity with
    | .error e => .error e
    | .ok _tgt_entity => .error (.nameError ["name \x27set_attr\x27 is not defined"])

/-- A sample entity class for concrete evaluations ("Host"). -/
def host_cls : PyObj := ⟨true, 0⟩

/-- A sample entity class for concrete evaluations ("IpAddress"). -/
def ip_cls : PyObj := ⟨true, 1⟩

/-- A sample entity vocabulary with the two legal names "Host" and
"IpAddress", both bound to (truthy) entity classes. -/
def sample_entities : PyModule := [("Host", host_cls), ("IpAddress", ip_cls)]

/-- A sample query provider: returns a one-row table echoing its
argument. -/
def whois_func : PyVal → Table := fun v => [v]

/-- Registration whose bindings list the legal "Host" first and the
unknown "Bogus" second. -/
def host_bogus_reg : PivotRegistration :=
  { qry_name := "test_query"
    qry_func := whois_func
    qry_entities := [("Host", .kw "hostname"), ("Bogus", .kw "x")] }

/-- Registration whose bindings list the unknown "Bogus" first and the
legal "Host" second. -/
def bogus_host_reg : PivotRegistration :=
  { qry_name := "test_query"
    qry_func := whois_func
    qry_entities := [("Bogus", .kw "x"), ("Host", .kw "hostname")] }

/-- Registration binding two legal entity names. -/
def host_ip_reg : PivotRegistration :=
  { qry_name := "test_query"
    qry_func := whois_func
    qry_entities := [("Host", .kw "hostname"), ("IpAddress", .kw "ip")] }

/-- Batch-capable registration binding the single legal name
"IpAddress". -/
def ip_whois_reg : PivotRegistration :=
  { qry_name := "whois"
    qry_func := whois_func
    qry_entities := [("IpAddress", .kw "ip")]
    multi_query_supported := true }

/-- Registration with an empty `qry_entities` mapping. -/
def empty_reg : PivotRegistration :=
  { qry_name := "noop", qry_func := whois_func }

/-- Helper: the instrumented comprehension calls the provider once per
value, in input order, and collects the tables in the same order. -/
theorem run_queries_eq (f : PyVal → Table) (vs : List PyVal) :
    run_queries f vs = (vs, vs.map f) := by
  induction vs with
  | nil => rfl
  | cons v vs ih => simp [run_queries, ih]

/-- C2: on a list of identifying values `vs`, `_iterate_prov_query` calls
the provider exactly once per value, in input order (the call trace is
`vs` itself), and returns the row-wise concatenation of the per-call
tables in that same call order. -/
theorem iterate_prov_query_calls_in_order (f : PyVal → Table) (vs : List PyVal) :
    iterate_prov_query f (.list vs) = .ok (vs, (vs.map f).flatten) := by
  simp [iterate_prov_query, iter_py, run_queries_eq, pd_concat]

/-- C3: the batch adapter does NOT normalize a bare scalar to a
one-element sequence.  A bare string "ab" is iterated character-wise, so
the provider is called twice (on "a" and on "b") instead of once on "ab"
as it is for the one-element list `["ab"]`; a bare int raises
`TypeError`.  Only the dead helper `_value_to_df` performs the
normalization the spec describes. -/
theorem iterate_prov_query_scalar_not_normalized :
    iterate_prov_query (fun v => [v]) (.str "ab") =
      .ok ([.str "a", .str "b"], [.str "a", .str "b"]) ∧
    iterate_prov_query (fun v => [v]) (.list [.str "ab"]) =
      .ok ([.str "ab"], [.str "ab"]) ∧
    iterate_prov_query (fun v => [v]) (.int 7) =
      .error (.typeError "\x27int\x27 object is not iterable") ∧
    value_to_df_normalize (.str "ab") = .list [.str "ab"] :=
  ⟨rfl, rfl, rfl, rfl⟩

/-- C4: resolving the unknown name "Bogus" does not produce the
`NameError` outcome with suggestions: `getattr` (no default) raises
`AttributeError` first, whatever the fuzzy matcher would have
suggested. -/
theorem entity_class_unknown_not_name_error
    (gcm : String → List String → List String) :
    entity_class sample_entities gcm "Bogus" = .error (.attributeError "Bogus") :=
  rfl

/-- C5: for the unknown near-miss name "Hosty" no failure message of the
three-case shape is produced — the resolution raises a bare
`AttributeError` even when the fuzzy matcher would return the single
close match "Host" — although the (unreachable) message builder does
follow the claimed one-match shape. -/
theorem entity_class_unknown_message_unreachable :
    entity_class sample_entities (fun _ _ => ["Host"]) "Hosty" =
      .error (.attributeError "Hosty") ∧
    closest_message "Hosty" ["Host", "IpAddress"] ["Host"] =
      "Hosty is not a recognized entity name. Closest match is \x27Host\x27" :=
  ⟨rfl, rfl⟩

/-- C1: a registration mixing a resolvable binding ("Host") with an
unresolvable one ("Bogus") is never processed per-binding: only the LAST
key is resolved, after the loop, and the first raised exception aborts
the whole call — with "Bogus" last an `AttributeError` escapes, with
"Host" last the unknown "Bogus" is never even looked at and the call dies
on the undefined `set_attr`.  No outcome records a per-binding failure
and no callable is attached for the good binding. -/
theorem register_partial_failure_aborts
    (gcm : String → List String → List String) :
    register_provider sample_entities gcm host_bogus_reg =
      .error (.attributeError "Bogus") ∧
    register_provider sample_entities gcm bogus_host_reg =
      .error (.nameError ["name \x27set_attr\x27 is not defined"]) :=
  ⟨rfl, rfl⟩

/-- C6: with two resolvable bindings, `register_provider` resolves only
the last listed entity ("IpAddress" — the loop variable's final value)
and then raises `NameError` on the undefined global `set_attr`, so no
entity type receives an attachment. -/
theorem register_attaches_nothing
    (gcm : String → List String → List String) :
    register_provider sample_entities gcm host_ip_reg =
      .error (.nameError ["name \x27set_attr\x27 is not defined"]) ∧
    (register_loop host_ip_reg).entity = some "IpAddress" :=
  ⟨rfl, rfl⟩

/-- C7: for a batch-capable registration the loop does select the
provider's `qry_func` unmodified (no batch adapter), and that callable,
invoked on a sequence, performs exactly one provider call with the whole
sequence and returns its table unchanged — but `register_provider` still
raises `NameError` on the undefined `set_attr`, so the callable is never
attached to any access point. -/
theorem register_batch_capable_never_attached
    (gcm : String → List String → List String) :
    register_provider sample_entities gcm ip_whois_reg =
      .error (.nameError ["name \x27set_attr\x27 is not defined"]) ∧
    (register_loop ip_whois_reg).qry_func = some (.base whois_func) ∧
    Callable.invoke (.base whois_func) (.list [.str "1.1.1.1", .str "8.8.8.8"]) =
      .ok ([.list [.str "1.1.1.1", .str "8.8.8.8"]],
        whois_func (.list [.str "1.1.1.1", .str "8.8.8.8"])) :=
  ⟨rfl, rfl, rfl⟩

/-- C8: a name bound in the vocabulary module to a truthy object (every
entity class is truthy) resolves to exactly that handle, for EVERY fuzzy
matcher `gcm` — the fuzzy-matching path is never consulted. -/
theorem entity_class_exact_match (entities : PyModule)
    (gcm : String → List String → List String) (name : String) (cls : PyObj)
    (hfound : lookup_attr entities name = some cls)
    (htruthy : cls.truthy = true) :
    entity_class entities gcm name = .ok cls := by
  simp [entity_class, hfound, htruthy]

/-- C8 witness: "Host" resolves to its class in the sample vocabulary. -/
theorem entity_class_exact_match_witness :
    entity_class sample_entities (fun _ _ => []) "Host" = .ok host_cls :=
  entity_class_exact_match sample_entities (fun _ _ => []) "Host" host_cls rfl rfl

/-- C9: a registration whose `qry_entities` is empty makes the loop body
never run, so the statement after the loop reads the never-assigned loop
variable `entity` and the call raises `UnboundLocalError` (an
unbound-name error). -/
theorem register_empty_unbound_local (entities : PyModule)
    (gcm : String → List String → List String) (prov : PivotRegistration)
    (h : prov.qry_entities = []) :
    register_provider entities gcm prov = .error (.unboundLocalError "entity") := by
  simp [register_provider, register_loop, h]

/-- C9 witness: the empty registration triggers the unbound-local
error. -/
theorem register_empty_unbound_local_witness :
    register_provider sample_entities (fun _ _ => []) empty_reg =
      .error (.unboundLocalError "entity") :=
  register_empty_unbound_local sample_entities (fun _ _ => []) empty_reg rfl

/-- Helper: when `multi_query_supported` is true, the loop never wraps
the provider — any callable the loop leaves in `qry_func` is the bare
provider function. -/
theorem register_loop_no_wrap_aux (prov : PivotRegistration)
    (h : prov.multi_query_supported = true) :
    ∀ (l : List (String × Binding)) (acc : LoopLocals),
      (acc.qry_func = none ∨ acc.qry_func = some (.base prov.qry_func)) →
      ((l.foldl (fun _ kv => loop_body prov kv) acc).qry_func = none ∨
       (l.foldl (fun _ kv => loop_body prov kv) acc).qry_func =
         some (.base prov.qry_func))
  | [], _, hacc => hacc
  | _ :: l, _, _ =>
      register_loop_no_wrap_aux prov h l _ (Or.inr (by simp [loop_body, h]))

/-- C10: a `PivotRegistration` built without mentioning
`multi_query_supported` gets the default `true`, and for any registration
with the flag true the loop of `register_provider` never wraps `qry_func`
in the batch adapter: whatever callable it computes is the bare
provider. -/
theorem default_multi_query_no_wrap (n : String) (f : PyVal → Table)
    (prov : PivotRegistration) (c : Callable)
    (h : prov.multi_query_supported = true)
    (hc : (register_loop prov).qry_func = some c) :
    ({ qry_name := n, qry_func := f } : PivotRegistration).multi_query_supported
      = true ∧
    c = .base prov.qry_func := by
  refine ⟨rfl, ?_⟩
  have := register_loop_no_wrap_aux prov h prov.qry_entities ⟨none, none⟩ (Or.inl rfl)
  rw [register_loop] at hc
  rcases this with hnone | hbase
  · rw [hc] at hnone; cases hnone
  · rw [hc] at hbase
    exact (Option.some.injEq _ _).mp hbase.symm |>.symm

/-- C10 witness: the default-flag literal is batch-capable and the
callable computed for the concrete batch-capable registration is the bare
provider. -/
theorem default_multi_query_no_wrap_witness :
    ({ qry_name := "whois", qry_func := whois_func } :
      PivotRegistration).multi_query_supported = true ∧
    Callable.base whois_func = .base ip_whois_reg.qry_func :=
  default_multi_query_no_wrap "whois" whois_func ip_whois_reg
    (.base whois_func) rfl rfl
